import Mathlib

/-
Verification development for the task-tracker dashboard (src/app.py).

The embedding models the date/time normalizer and the duration/lifecycle
logic of the source:
  * parse_date_robustly   (src/app.py lines 41-55)
  * calculate_duration    (src/app.py lines 57-78)
  * update_data date serialization via strftime of the %d/%b/%Y format
  * the admin_assign, adm_complete and adm_edit form handlers

Python string-format semantics are embedded following the CPython
_strptime implementation: each directive is a regex alternation tried
in order with backtracking, the whole string must match, and the final
datetime construction validates the calendar day (an invalid day makes
that format fail so the next one is tried).
-/

namespace AppModel

/-- Decimal digit character with value n (n at most 9). -/
def digitChar (n : Nat) : Char := Char.ofNat (48 + n)

/-- Numeric value of a digit character. -/
def dval (c : Char) : Nat := c.toNat - 48

/-- Code-point range test used to express the character classes. -/
def inRange (lo hi : Nat) (c : Char) : Bool := decide (lo ≤ c.toNat ∧ c.toNat ≤ hi)

/-- The regex digit class backslash-d restricted to ASCII digits. -/
def isDig (c : Char) : Bool := inRange 48 57 c

/-- ASCII whitespace, the characters stripped by the Python str.strip default
and matched by the backslash-s class on the inputs of interest. -/
def isSpaceChar (c : Char) : Bool :=
  c == ' ' || c == '\t' || c == '\n' || c == '\r' || c == '\x0b' || c == '\x0c'

/-- ASCII lower-casing, matching the case-insensitive matching of month
abbreviations and the AM/PM marker inside strptime. -/
def lowerChar (c : Char) : Char :=
  if 65 ≤ c.toNat ∧ c.toNat ≤ 90 then Char.ofNat (c.toNat + 32) else c

/-- Python str.strip with no argument: drop whitespace from both ends. -/
def pyStrip (s : String) : String :=
  String.mk (((s.data.dropWhile isSpaceChar).reverse.dropWhile isSpaceChar).reverse)

/-- Canonical calendar date (the date part of a Python datetime). -/
structure Date where
  year : Nat
  month : Nat
  day : Nat
  deriving DecidableEq

/-- Canonical wall-clock time in 24-hour form (the time part of a datetime). -/
structure TimeHMS where
  hour : Nat
  minute : Nat
  second : Nat
  deriving DecidableEq

/-- Gregorian leap-year rule, as used by Python datetime. -/
def isLeapYear (y : Nat) : Bool := y % 4 == 0 && (y % 100 != 0 || y % 400 == 0)

/-- Number of days of month m in year y. -/
def daysInMonth (y m : Nat) : Nat :=
  if m = 2 then (if isLeapYear y then 29 else 28)
  else if m = 4 ∨ m = 6 ∨ m = 9 ∨ m = 11 then 30
  else 31

/-- The datetime constructor: succeeds exactly on calendar-valid
year/month/day triples inside the datetime year range 1-9999. -/
def mkValidDate (y m d : Nat) : Option Date :=
  if 1 ≤ y ∧ y ≤ 9999 ∧ 1 ≤ m ∧ m ≤ 12 ∧ 1 ≤ d ∧ d ≤ daysInMonth y m then
    some ⟨y, m, d⟩
  else none

/-- Regex-alternation backtracking: try each candidate (value, remaining input)
in order, committing to the first one whose continuation succeeds. -/
def tryAlts (cands : List (Nat × List Char)) (k : Nat → List Char → Option α) : Option α :=
  match cands with
  | [] => none
  | (v, rest) :: t =>
    match k v rest with
    | some r => some r
    | none => tryAlts t k

/-- Literal character in a strptime format string. -/
def expectChar (c : Char) : List Char → Option (List Char)
  | x :: rest => if x == c then some rest else none
  | [] => none

/-- The %Y directive: exactly four digits. -/
def match4Digits : List Char → Option (Nat × List Char)
  | a :: b :: c :: d :: rest =>
    if isDig a && isDig b && isDig c && isDig d then
      some (dval a * 1000 + dval b * 100 + dval c * 10 + dval d, rest)
    else none
  | _ => none

/-- Month number of a lower-cased three-letter abbreviation (C locale). -/
def monthNum : Char → Char → Char → Option Nat
  | 'j', 'a', 'n' => some 1
  | 'f', 'e', 'b' => some 2
  | 'm', 'a', 'r' => some 3
  | 'a', 'p', 'r' => some 4
  | 'm', 'a', 'y' => some 5
  | 'j', 'u', 'n' => some 6
  | 'j', 'u', 'l' => some 7
  | 'a', 'u', 'g' => some 8
  | 's', 'e', 'p' => some 9
  | 'o', 'c', 't' => some 10
  | 'n', 'o', 'v' => some 11
  | 'd', 'e', 'c' => some 12
  | _, _, _ => none

/-- The %b directive: a case-insensitive three-letter month abbreviation. -/
def matchMonth : List Char → Option (Nat × List Char)
  | c1 :: c2 :: c3 :: rest =>
    match monthNum (lowerChar c1) (lowerChar c2) (lowerChar c3) with
    | some m => some (m, rest)
    | none => none
  | _ => none

/-- Candidates of the %d directive, in regex-alternation order:
31 and 30, then 10-29, then zero-padded 01-09, then bare 1-9. -/
def altsD (cs : List Char) : List (Nat × List Char) :=
  match cs with
  | c1 :: c2 :: rest =>
    (if c1 == '3' && (c2 == '0' || c2 == '1') then [(30 + dval c2, rest)] else [])
    ++ (if (c1 == '1' || c1 == '2') && isDig c2 then [(dval c1 * 10 + dval c2, rest)] else [])
    ++ (if c1 == '0' && isDig c2 && c2 != '0' then [(dval c2, rest)] else [])
    ++ (if isDig c1 && c1 != '0' then [(dval c1, c2 :: rest)] else [])
  | [c1] => if isDig c1 && c1 != '0' then [(dval c1, [])] else []
  | [] => []

/-- Candidates of the %m directive (the %I directive has the same pattern):
10-12, then zero-padded 01-09, then bare 1-9. -/
def altsM (cs : List Char) : List (Nat × List Char) :=
  match cs with
  | c1 :: c2 :: rest =>
    (if c1 == '1' && (c2 == '0' || c2 == '1' || c2 == '2') then [(10 + dval c2, rest)] else [])
    ++ (if c1 == '0' && isDig c2 && c2 != '0' then [(dval c2, rest)] else [])
    ++ (if isDig c1 && c1 != '0' then [(dval c1, c2 :: rest)] else [])
  | [c1] => if isDig c1 && c1 != '0' then [(dval c1, [])] else []
  | [] => []

/-- Candidates of the %M directive: two digits 00-59, then one digit. -/
def altsMin (cs : List Char) : List (Nat × List Char) :=
  match cs with
  | c1 :: c2 :: rest =>
    (if inRange 48 53 c1 && isDig c2 then [(dval c1 * 10 + dval c2, rest)] else [])
    ++ (if isDig c1 then [(dval c1, c2 :: rest)] else [])
  | [c1] => if isDig c1 then [(dval c1, [])] else []
  | [] => []

/-- Candidates of the %S directive: 60-61, then 00-59, then one digit. -/
def altsS (cs : List Char) : List (Nat × List Char) :=
  match cs with
  | c1 :: c2 :: rest =>
    (if c1 == '6' && (c2 == '0' || c2 == '1') then [(60 + dval c2, rest)] else [])
    ++ (if inRange 48 53 c1 && isDig c2 then [(dval c1 * 10 + dval c2, rest)] else [])
    ++ (if isDig c1 then [(dval c1, c2 :: rest)] else [])
  | [c1] => if isDig c1 then [(dval c1, [])] else []
  | [] => []

/-- Whitespace in a strptime format matches one or more whitespace chars. -/
def wsPlus : List Char → Option (List Char)
  | c :: rest => if isSpaceChar c then some (rest.dropWhile isSpaceChar) else none
  | [] => none

/-- The %p directive: case-insensitive AM or PM; true means PM. -/
def matchAmPm : List Char → Option (Bool × List Char)
  | c1 :: c2 :: rest =>
    match lowerChar c1, lowerChar c2 with
    | 'a', 'm' => some (false, rest)
    | 'p', 'm' => some (true, rest)
    | _, _ => none
  | _ => none

/-- strptime with format %d/%b/%Y (whole-string match, then date validation). -/
def parse_fmt_dbY (s : String) : Option Date :=
  tryAlts (altsD s.data) fun d cs =>
    match expectChar '/' cs with
    | none => none
    | some cs =>
      match matchMonth cs with
      | none => none
      | some (m, cs) =>
        match expectChar '/' cs with
        | none => none
        | some cs =>
          match match4Digits cs with
          | none => none
          | some (y, cs) =>
            match cs with
            | [] => mkValidDate y m d
            | _ :: _ => none

/-- strptime with format %m/%d/%Y. -/
def parse_fmt_mdY (s : String) : Option Date :=
  tryAlts (altsM s.data) fun m cs =>
    match expectChar '/' cs with
    | none => none
    | some cs =>
      tryAlts (altsD cs) fun d cs =>
        match expectChar '/' cs with
        | none => none
        | some cs =>
          match match4Digits cs with
          | none => none
          | some (y, cs) =>
            match cs with
            | [] => mkValidDate y m d
            | _ :: _ => none

/-- strptime with format %d/%m/%Y. -/
def parse_fmt_dmY (s : String) : Option Date :=
  tryAlts (altsD s.data) fun d cs =>
    match expectChar '/' cs with
    | none => none
    | some cs =>
      tryAlts (altsM cs) fun m cs =>
        match expectChar '/' cs with
        | none => none
        | some cs =>
          match match4Digits cs with
          | none => none
          | some (y, cs) =>
            match cs with
            | [] => mkValidDate y m d
            | _ :: _ => none

/-- strptime with format %Y-%m-%d or %Y/%m/%d, by separator. -/
def parse_fmt_Ymd (sep : Char) (s : String) : Option Date :=
  match match4Digits s.data with
  | none => none
  | some (y, cs) =>
    match expectChar sep cs with
    | none => none
    | some cs =>
      tryAlts (altsM cs) fun m cs =>
        match expectChar sep cs with
        | none => none
        | some cs =>
          tryAlts (altsD cs) fun d cs =>
            match cs with
            | [] => mkValidDate y m d
            | _ :: _ => none

/-- The formats_to_try list of parse_date_robustly, in source order. -/
def formats_to_try : List (String → Option Date) :=
  [parse_fmt_dbY, parse_fmt_mdY, parse_fmt_dmY, parse_fmt_Ymd '-', parse_fmt_Ymd '/']

/-- First format that parses, in priority order. -/
def firstParse : List (String → Option Date) → String → Option Date
  | [], _ => none
  | f :: fs, s =>
    match f s with
    | some d => some d
    | none => firstParse fs s

/-- Input of parse_date_robustly: a missing value (None, NaN or NaT), an
already-canonical datetime or Timestamp, or a string cell. -/
inductive DateInput where
  | na : DateInput
  | canonical : Date → DateInput
  | str : String → DateInput

/-- parse_date_robustly (src/app.py lines 41-55): missing or empty input gives
None, canonical input passes through, otherwise the stripped string is tried
against the five formats in order. -/
def parse_date_robustly : DateInput → Option Date
  | .na => none
  | .canonical d => some d
  | .str s => if s = "" then none else firstParse formats_to_try (pyStrip s)

/-- strptime with format %I:%M:%S %p followed by the datetime constructor
(which rejects the leap seconds 60 and 61 admitted by the %S regex).
The %I value 12 means hour 0, and PM adds 12 to hours other than 12. -/
def parse_time_IMSp (s : String) : Option TimeHMS :=
  tryAlts (altsM s.data) fun h12 cs =>
    match expectChar ':' cs with
    | none => none
    | some cs =>
      tryAlts (altsMin cs) fun mi cs =>
        match expectChar ':' cs with
        | none => none
        | some cs =>
          tryAlts (altsS cs) fun se cs =>
            match wsPlus cs with
            | none => none
            | some cs =>
              match matchAmPm cs with
              | none => none
              | some (pm, cs) =>
                match cs with
                | [] =>
                  if se ≤ 59 then
                    some ⟨(if pm then (if h12 = 12 then 0 else h12) + 12
                           else (if h12 = 12 then 0 else h12)), mi, se⟩
                  else none
                | _ :: _ => none

/-- The seconds fix-up of calculate_duration (src/app.py lines 67-68): when
splitting on a colon yields exactly two pieces, the literal ":00" is appended
at the end of the string. -/
def fixSeconds (s : String) : String :=
  if s.data.countP (fun c => c == ':') = 1 then s ++ ":00" else s

/-- Days before month m in year y. -/
def daysBeforeMonth (y m : Nat) : Nat :=
  ((List.range (m - 1)).map (fun k => daysInMonth y (k + 1))).sum

/-- Proleptic Gregorian ordinal of a date, as Python date.toordinal. -/
def toOrdinal (dt : Date) : Nat :=
  365 * (dt.year - 1) + (dt.year - 1) / 4 - (dt.year - 1) / 100 + (dt.year - 1) / 400
    + daysBeforeMonth dt.year dt.month + dt.day

/-- Seconds of a combined datetime, for exact timedelta arithmetic. -/
def dtSeconds (dt : Date) (t : TimeHMS) : Int :=
  (toOrdinal dt : Int) * 86400 + (t.hour : Int) * 3600 + (t.minute : Int) * 60 + (t.second : Int)

/-- calculate_duration (src/app.py lines 57-78).  Both dates are parsed with
parse_date_robustly; a None date gives the sentinel.  Both time strings are
stringified, stripped, run through the seconds fix-up and parsed with
strptime %I:%M:%S %p; any exception on that path is caught by the bare
except and gives the sentinel.  A negative difference gives the sentinel,
otherwise hours and minutes are produced by integer truncation. -/
def calculate_duration (start_date : DateInput) (start_time : String)
    (end_date : DateInput) (end_time : String) : String :=
  match parse_date_robustly start_date with
  | none => "0h 0m"
  | some s_date =>
    match parse_date_robustly end_date with
    | none => "0h 0m"
    | some e_date =>
      match parse_time_IMSp (fixSeconds (pyStrip start_time)) with
      | none => "0h 0m"
      | some st =>
        match parse_time_IMSp (fixSeconds (pyStrip end_time)) with
        | none => "0h 0m"
        | some et =>
          if dtSeconds e_date et - dtSeconds s_date st < 0 then "0h 0m"
          else
            toString ((dtSeconds e_date et - dtSeconds s_date st).toNat / 3600) ++ "h " ++
              toString ((dtSeconds e_date et - dtSeconds s_date st).toNat % 3600 / 60) ++ "m"

/-- Characters of the three-letter month abbreviation written by strftime %b. -/
def monthChars : Nat → List Char
  | 1 => ['J', 'a', 'n']
  | 2 => ['F', 'e', 'b']
  | 3 => ['M', 'a', 'r']
  | 4 => ['A', 'p', 'r']
  | 5 => ['M', 'a', 'y']
  | 6 => ['J', 'u', 'n']
  | 7 => ['J', 'u', 'l']
  | 8 => ['A', 'u', 'g']
  | 9 => ['S', 'e', 'p']
  | 10 => ['O', 'c', 't']
  | 11 => ['N', 'o', 'v']
  | 12 => ['D', 'e', 'c']
  | _ => []

/-- Two-digit zero-padded decimal, for values below 100. -/
def pad2L (n : Nat) : List Char := [digitChar (n / 10), digitChar (n % 10)]

/-- Four-digit zero-padded decimal, for values below 10000. -/
def pad4L (n : Nat) : List Char :=
  [digitChar (n / 1000), digitChar (n / 100 % 10), digitChar (n / 10 % 10), digitChar (n % 10)]

/-- strftime %d/%b/%Y: the single persisted date format of the app
(update_data and all handlers write dates only through this format). -/
def strftime_dbY (dt : Date) : String :=
  String.mk (pad2L dt.day ++ '/' :: (monthChars dt.month ++ '/' :: pad4L dt.year))

/-- strftime %I:%M:%S %p: the persisted time format of the app. -/
def strftime_IMSp (t : TimeHMS) : String :=
  String.mk (pad2L (if t.hour % 12 = 0 then 12 else t.hour % 12) ++ ':' ::
    (pad2L t.minute ++ ':' :: (pad2L t.second ++
      (if t.hour < 12 then [' ', 'A', 'M'] else [' ', 'P', 'M']))))

/-- One row of the Tasks table, with the columns the handlers touch.
The Progress column holds either the empty cell (none) or a number. -/
structure TaskRecord where
  employee : String
  taskDescription : String
  branch : String
  assignedDate : String
  assignedTime : String
  completionStatus : String
  completionDate : String
  completionTime : String
  duration : String
  progress : Option Nat
  journalDate : String
  numberOfFindings : Int
  numberOfTransaction : Int
  deriving DecidableEq

/-- A caller-supplied current instant (the value of get_current_time). -/
structure Instant where
  date : Date
  time : TimeHMS

/-- The admin_assign form handler (src/app.py lines 318-326): the new row
appended to the table.  Note the Progress cell is written as the empty
string, not as a number. -/
def admin_assign (tgt typ brn : String) (jdt : Date) (now : Instant) : TaskRecord :=
  { employee := tgt
    taskDescription := typ
    branch := brn
    assignedDate := strftime_dbY now.date
    assignedTime := strftime_IMSp now.time
    completionStatus := "In Progress"
    completionDate := ""
    completionTime := ""
    duration := ""
    progress := none
    journalDate := strftime_dbY jdt
    numberOfFindings := 0
    numberOfTransaction := 0 }

/-- The adm_complete form handler (src/app.py lines 267-277): one submit
writes the two count inputs and the five completion fields in a single
update of the row (persisted by one update_data call).  The number inputs
default to the current counts of the row. -/
def adm_complete (r : TaskRecord) (nt nf : Int) (now : Instant) : TaskRecord :=
  { r with
    numberOfTransaction := nt
    numberOfFindings := nf
    completionStatus := "Completed"
    completionDate := strftime_dbY now.date
    completionTime := strftime_IMSp now.time
    duration := calculate_duration (.str r.assignedDate) r.assignedTime
      (.str (strftime_dbY now.date)) (strftime_IMSp now.time)
    progress := some 1 }

/-- The adm_edit form handler (src/app.py lines 300-303): the administrator
count edit touches only the two count columns. -/
def adm_edit (r : TaskRecord) (nt nf : Int) : TaskRecord :=
  { r with
    numberOfTransaction := nt
    numberOfFindings := nf }

/-- Records reachable from creation by the three operations.  The complete
operation is only offered on rows whose status is not Completed (the
active-task mask of the My Tasks tab). -/
inductive Reachable : TaskRecord → Prop where
  | create : ∀ tgt typ brn jdt now, Reachable (admin_assign tgt typ brn jdt now)
  | complete : ∀ r nt nf now, Reachable r → r.completionStatus ≠ "Completed" →
      Reachable (adm_complete r nt nf now)
  | edit : ∀ r nt nf, Reachable r → Reachable (adm_edit r nt nf)

/-- The lifecycle invariant: completion date, completion time and duration
are non-empty exactly when the status is Completed. -/
def completionInv (r : TaskRecord) : Prop :=
  (r.completionDate ≠ "" ∧ r.completionTime ≠ "" ∧ r.duration ≠ "") ↔
    r.completionStatus = "Completed"

/-- Calendar-valid dates in the range the Python datetime type admits. -/
abbrev ValidDate (dt : Date) : Prop :=
  1 ≤ dt.year ∧ dt.year ≤ 9999 ∧ 1 ≤ dt.month ∧ dt.month ≤ 12 ∧
    1 ≤ dt.day ∧ dt.day ≤ daysInMonth dt.year dt.month

/-- A sample current instant for witnesses. -/
def sampleInstant : Instant := ⟨⟨2025, 12, 27⟩, ⟨17, 15, 30⟩⟩

/-- A sample in-progress row with counts 5 and 2, as in the spec scenario. -/
def sampleRecord : TaskRecord :=
  { employee := "emp1"
    taskDescription := "Cash"
    branch := "NAL"
    assignedDate := "27/Dec/2025"
    assignedTime := "09:00:00 AM"
    completionStatus := "In Progress"
    completionDate := ""
    completionTime := ""
    duration := ""
    progress := none
    journalDate := "27/Dec/2025"
    numberOfFindings := 2
    numberOfTransaction := 5 }

/-- One cell of the update_data date normalization (src/app.py lines 105-108):
a cell that parses is rewritten in the %d/%b/%Y format, any other cell is
passed through unchanged. -/
def update_data_cell (x : DateInput) : DateInput :=
  match parse_date_robustly x with
  | some d => .str (strftime_dbY d)
  | none => x

/-- Appending a string is append of the character data. -/
theorem str_data_append (s t : String) : (s ++ t).data = s.data ++ t.data := by
  cases s
  cases t
  rfl

/-- A string with a non-empty right append part is non-empty. -/
theorem append_ne_empty_right (s t : String) (h : t.data ≠ []) : s ++ t ≠ "" := by
  intro he
  apply h
  have h2 := congrArg String.data he
  rw [str_data_append] at h2
  exact (List.append_eq_nil.mp h2).2

/-- The formatted date string is never empty. -/
theorem strftime_dbY_ne_empty (dt : Date) : strftime_dbY dt ≠ "" := by
  intro h
  have h2 : (strftime_dbY dt).data = [] := by rw [h]
  have h3 : digitChar (dt.day / 10) ::
      (digitChar (dt.day % 10) :: ('/' :: (monthChars dt.month ++ '/' :: pad4L dt.year))) = [] := h2
  exact absurd h3 (List.cons_ne_nil _ _)

/-- The formatted time string is never empty. -/
theorem strftime_IMSp_ne_empty (t : TimeHMS) : strftime_IMSp t ≠ "" := by
  intro h
  have h2 : (strftime_IMSp t).data = [] := by rw [h]
  have h3 : digitChar ((if t.hour % 12 = 0 then 12 else t.hour % 12) / 10) ::
      (digitChar ((if t.hour % 12 = 0 then 12 else t.hour % 12) % 10) ::
        (':' :: (pad2L t.minute ++ ':' :: (pad2L t.second ++
          (if t.hour < 12 then [' ', 'A', 'M'] else [' ', 'P', 'M']))))) = [] := h2
  exact absurd h3 (List.cons_ne_nil _ _)

/-- The duration string is never empty: every branch returns either the
sentinel or a string ending in the letter m. -/
theorem calculate_duration_ne_empty (sd ed : DateInput) (st et : String) :
    calculate_duration sd st ed et ≠ "" := by
  unfold calculate_duration
  cases parse_date_robustly sd with
  | none => exact (by decide : ("0h 0m" : String) ≠ "")
  | some d1 =>
    cases parse_date_robustly ed with
    | none => exact (by decide : ("0h 0m" : String) ≠ "")
    | some d2 =>
      cases parse_time_IMSp (fixSeconds (pyStrip st)) with
      | none => exact (by decide : ("0h 0m" : String) ≠ "")
      | some t1 =>
        cases parse_time_IMSp (fixSeconds (pyStrip et)) with
        | none => exact (by decide : ("0h 0m" : String) ≠ "")
        | some t2 =>
          show (if dtSeconds d2 t2 - dtSeconds d1 t1 < 0 then "0h 0m"
              else toString ((dtSeconds d2 t2 - dtSeconds d1 t1).toNat / 3600) ++ "h " ++
                toString ((dtSeconds d2 t2 - dtSeconds d1 t1).toNat % 3600 / 60) ++ "m") ≠ ""
          split
          · exact (by decide : ("0h 0m" : String) ≠ "")
          · exact append_ne_empty_right _ "m" (by decide)

/-- C1: when all four inputs normalize and the completion instant is at or
after the assignment instant, calculate_duration returns the string built
from hours = floor of the second difference over 3600 and minutes = floor of
the remainder over 60, truncating seconds; and the 27/Dec/2025 scenario from
09:00:00 AM to 05:15:30 PM yields exactly "8h 15m". -/
theorem c1_duration_format :
    (∀ (sd ed : DateInput) (st et : String) (d1 d2 : Date) (t1 t2 : TimeHMS),
      parse_date_robustly sd = some d1 →
      parse_date_robustly ed = some d2 →
      parse_time_IMSp (fixSeconds (pyStrip st)) = some t1 →
      parse_time_IMSp (fixSeconds (pyStrip et)) = some t2 →
      dtSeconds d1 t1 ≤ dtSeconds d2 t2 →
      calculate_duration sd st ed et =
        toString ((dtSeconds d2 t2 - dtSeconds d1 t1).toNat / 3600) ++ "h " ++
          toString ((dtSeconds d2 t2 - dtSeconds d1 t1).toNat % 3600 / 60) ++ "m") ∧
    calculate_duration (.str "27/Dec/2025") "09:00:00 AM" (.str "27/Dec/2025") "05:15:30 PM" =
      "8h 15m" := by
  constructor
  · intro sd ed st et d1 d2 t1 t2 h1 h2 h3 h4 h5
    simp only [calculate_duration, h1, h2, h3, h4]
    rw [if_neg (by omega)]
  · decide

/-- Witness for C1 at a concrete input with all hypotheses discharged. -/
theorem c1_duration_format_witness :
    calculate_duration (.str "01/Jan/2026") "10:00:00 AM" (.str "01/Jan/2026") "11:30:45 AM" =
      "1h 30m" := by
  have h := c1_duration_format.1 (.str "01/Jan/2026") (.str "01/Jan/2026")
    "10:00:00 AM" "11:30:45 AM" ⟨2026, 1, 1⟩ ⟨2026, 1, 1⟩ ⟨10, 0, 0⟩ ⟨11, 30, 45⟩
    (by decide) (by decide) (by decide) (by decide) (by decide)
  exact h.trans (by decide)

/-- C2: calculate_duration is a total function of its inputs (the model of
never raising: the bare except of the source is the none branches); it
returns the sentinel whenever any of the four inputs fails to normalize,
and whenever the completion instant is strictly earlier than the assignment
instant. -/
theorem c2_duration_sentinel :
    ∀ (sd ed : DateInput) (st et : String),
      ((parse_date_robustly sd = none ∨ parse_date_robustly ed = none ∨
        parse_time_IMSp (fixSeconds (pyStrip st)) = none ∨
        parse_time_IMSp (fixSeconds (pyStrip et)) = none) →
        calculate_duration sd st ed et = "0h 0m") ∧
      (∀ (d1 d2 : Date) (t1 t2 : TimeHMS),
        parse_date_robustly sd = some d1 →
        parse_date_robustly ed = some d2 →
        parse_time_IMSp (fixSeconds (pyStrip st)) = some t1 →
        parse_time_IMSp (fixSeconds (pyStrip et)) = some t2 →
        dtSeconds d2 t2 < dtSeconds d1 t1 →
        calculate_duration sd st ed et = "0h 0m") := by
  intro sd ed st et
  constructor
  · intro h
    unfold calculate_duration
    rcases h with h | h | h | h
    · simp only [h]
    · simp only [h]
      cases parse_date_robustly sd <;> rfl
    · simp only [h]
      cases parse_date_robustly sd <;> cases parse_date_robustly ed <;> rfl
    · simp only [h]
      cases parse_date_robustly sd <;> cases parse_date_robustly ed <;>
        cases parse_time_IMSp (fixSeconds (pyStrip st)) <;> rfl
  · intro d1 d2 t1 t2 h1 h2 h3 h4 hlt
    simp only [calculate_duration, h1, h2, h3, h4]
    rw [if_pos (by omega)]

/-- Witness for C2: an unparsable date and a negative difference both give
the sentinel. -/
theorem c2_duration_sentinel_witness :
    calculate_duration (.str "not-a-date") "09:00:00 AM" (.str "27/Dec/2025") "10:00:00 AM" =
      "0h 0m" ∧
    calculate_duration (.str "27/Dec/2025") "05:15:30 PM" (.str "27/Dec/2025") "09:00:00 AM" =
      "0h 0m" :=
  ⟨(c2_duration_sentinel (.str "not-a-date") (.str "27/Dec/2025") "09:00:00 AM"
      "10:00:00 AM").1 (Or.inl (by decide)),
   (c2_duration_sentinel (.str "27/Dec/2025") (.str "27/Dec/2025") "05:15:30 PM"
      "09:00:00 AM").2 ⟨2025, 12, 27⟩ ⟨2025, 12, 27⟩ ⟨17, 15, 30⟩ ⟨9, 0, 0⟩
      (by decide) (by decide) (by decide) (by decide) (by decide)⟩

/-- C3: parse_date_robustly tries the formats in the fixed priority order
day/abbreviated-month/year, month/day/year, day/month/year, ISO with dash,
ISO with slash, returning the first match; the ambiguous "03/04/2025"
resolves to month 3 day 4 by the month/day/year pattern even though the
day/month/year pattern alone would give month 4 day 3; empty, missing and
unparsable input give none. -/
theorem c3_parse_date_priority :
    (∀ s d, parse_fmt_dbY (pyStrip s) = some d → parse_date_robustly (.str s) = some d) ∧
    (∀ s d, parse_fmt_dbY (pyStrip s) = none → parse_fmt_mdY (pyStrip s) = some d →
      parse_date_robustly (.str s) = some d) ∧
    (∀ s d, parse_fmt_dbY (pyStrip s) = none → parse_fmt_mdY (pyStrip s) = none →
      parse_fmt_dmY (pyStrip s) = some d → parse_date_robustly (.str s) = some d) ∧
    (∀ s d, parse_fmt_dbY (pyStrip s) = none → parse_fmt_mdY (pyStrip s) = none →
      parse_fmt_dmY (pyStrip s) = none → parse_fmt_Ymd '-' (pyStrip s) = some d →
      parse_date_robustly (.str s) = some d) ∧
    (∀ s d, parse_fmt_dbY (pyStrip s) = none → parse_fmt_mdY (pyStrip s) = none →
      parse_fmt_dmY (pyStrip s) = none → parse_fmt_Ymd '-' (pyStrip s) = none →
      parse_fmt_Ymd '/' (pyStrip s) = some d → parse_date_robustly (.str s) = some d) ∧
    parse_date_robustly (.str "03/04/2025") = some ⟨2025, 3, 4⟩ ∧
    parse_fmt_dmY "03/04/2025" = some ⟨2025, 4, 3⟩ ∧
    parse_date_robustly (.str "") = none ∧
    parse_date_robustly .na = none ∧
    parse_date_robustly (.str "not-a-date") = none := by
  refine ⟨?_, ?_, ?_, ?_, ?_, by decide, by decide, by decide, rfl, by decide⟩
  · intro s d h
    have hs : s ≠ "" := by
      intro he
      subst he
      have hz : parse_fmt_dbY (pyStrip "") = none := by decide
      exact Option.noConfusion (hz.symm.trans h)
    show (if s = "" then none else firstParse formats_to_try (pyStrip s)) = some d
    rw [if_neg hs]
    simp only [formats_to_try, firstParse, h]
  · intro s d h1 h2
    have hs : s ≠ "" := by
      intro he
      subst he
      have hz : parse_fmt_mdY (pyStrip "") = none := by decide
      exact Option.noConfusion (hz.symm.trans h2)
    show (if s = "" then none else firstParse formats_to_try (pyStrip s)) = some d
    rw [if_neg hs]
    simp only [formats_to_try, firstParse, h1, h2]
  · intro s d h1 h2 h3
    have hs : s ≠ "" := by
      intro he
      subst he
      have hz : parse_fmt_dmY (pyStrip "") = none := by decide
      exact Option.noConfusion (hz.symm.trans h3)
    show (if s = "" then none else firstParse formats_to_try (pyStrip s)) = some d
    rw [if_neg hs]
    simp only [formats_to_try, firstParse, h1, h2, h3]
  · intro s d h1 h2 h3 h4
    have hs : s ≠ "" := by
      intro he
      subst he
      have hz : parse_fmt_Ymd '-' (pyStrip "") = none := by decide
      exact Option.noConfusion (hz.symm.trans h4)
    show (if s = "" then none else firstParse formats_to_try (pyStrip s)) = some d
    rw [if_neg hs]
    simp only [formats_to_try, firstParse, h1, h2, h3, h4]
  · intro s d h1 h2 h3 h4 h5
    have hs : s ≠ "" := by
      intro he
      subst he
      have hz : parse_fmt_Ymd '/' (pyStrip "") = none := by decide
      exact Option.noConfusion (hz.symm.trans h5)
    show (if s = "" then none else firstParse formats_to_try (pyStrip s)) = some d
    rw [if_neg hs]
    simp only [formats_to_try, firstParse, h1, h2, h3, h4, h5]

/-- Witness for C3: the first format matches 27/Dec/2025 and the priority
chain gives its value. -/
theorem c3_parse_date_priority_witness :
    parse_fmt_dbY (pyStrip "27/Dec/2025") = some ⟨2025, 12, 27⟩ ∧
    parse_date_robustly (.str "27/Dec/2025") = some ⟨2025, 12, 27⟩ :=
  ⟨by decide, c3_parse_date_priority.1 "27/Dec/2025" ⟨2025, 12, 27⟩ (by decide)⟩

/-- C4: every record reachable from creation by the create, complete and
count-edit operations satisfies the completion invariant, and each of the
three operations preserves it. -/
theorem c4_completion_invariant :
    (∀ r, Reachable r → completionInv r) ∧
    (∀ tgt typ brn jdt now, completionInv (admin_assign tgt typ brn jdt now)) ∧
    (∀ r nt nf, completionInv r → completionInv (adm_edit r nt nf)) ∧
    (∀ r nt nf now, completionInv (adm_complete r nt nf now)) := by
  have hassign : ∀ tgt typ brn jdt now, completionInv (admin_assign tgt typ brn jdt now) := by
    intro tgt typ brn jdt now
    constructor
    · rintro ⟨h, -, -⟩
      exact absurd rfl h
    · intro h
      exact absurd h (by decide : ¬("In Progress" : String) = "Completed")
  have hcomplete : ∀ r nt nf now, completionInv (adm_complete r nt nf now) := by
    intro r nt nf now
    constructor
    · intro _
      rfl
    · intro _
      exact ⟨strftime_dbY_ne_empty _, strftime_IMSp_ne_empty _,
        calculate_duration_ne_empty _ _ _ _⟩
  have hedit : ∀ r nt nf, completionInv r → completionInv (adm_edit r nt nf) := by
    intro r nt nf h
    exact h
  refine ⟨?_, hassign, hedit, hcomplete⟩
  intro r hr
  induction hr with
  | create tgt typ brn jdt now => exact hassign tgt typ brn jdt now
  | complete r nt nf now _ _ ih => exact hcomplete r nt nf now
  | edit r nt nf _ ih => exact hedit r nt nf ih

/-- Witness for C4 at a concrete reachable record. -/
theorem c4_completion_invariant_witness :
    completionInv (admin_assign "emp1" "Cash" "NAL" ⟨2025, 12, 27⟩ sampleInstant) :=
  c4_completion_invariant.1 _ (Reachable.create "emp1" "Cash" "NAL" ⟨2025, 12, 27⟩ sampleInstant)

/-- C5: completing an in-progress record with the default count inputs of
the form (the current counts of the row) produces exactly the record with
the five completion fields set in one update and every other field
unchanged, and the three completion strings are non-empty. -/
theorem c5_complete_frame :
    ∀ (r : TaskRecord) (now : Instant),
      r.completionStatus = "In Progress" →
      adm_complete r r.numberOfTransaction r.numberOfFindings now =
        { r with
          completionStatus := "Completed"
          completionDate := strftime_dbY now.date
          completionTime := strftime_IMSp now.time
          duration := calculate_duration (.str r.assignedDate) r.assignedTime
            (.str (strftime_dbY now.date)) (strftime_IMSp now.time)
          progress := some 1 } ∧
      strftime_dbY now.date ≠ "" ∧ strftime_IMSp now.time ≠ "" ∧
      calculate_duration (.str r.assignedDate) r.assignedTime
        (.str (strftime_dbY now.date)) (strftime_IMSp now.time) ≠ "" := by
  intro r now _
  exact ⟨rfl, strftime_dbY_ne_empty _, strftime_IMSp_ne_empty _,
    calculate_duration_ne_empty _ _ _ _⟩

/-- Witness for C5 at the sample record with counts 5 and 2. -/
theorem c5_complete_frame_witness :
    sampleRecord.completionStatus = "In Progress" ∧
    adm_complete sampleRecord sampleRecord.numberOfTransaction sampleRecord.numberOfFindings
        sampleInstant =
      { sampleRecord with
        completionStatus := "Completed"
        completionDate := strftime_dbY sampleInstant.date
        completionTime := strftime_IMSp sampleInstant.time
        duration := calculate_duration (.str sampleRecord.assignedDate) sampleRecord.assignedTime
          (.str (strftime_dbY sampleInstant.date)) (strftime_IMSp sampleInstant.time)
        progress := some 1 } :=
  ⟨rfl, (c5_complete_frame sampleRecord sampleInstant rfl).1⟩

/-- C6 (code bug): the missing-seconds fix-up appends the literal ":00"
after the AM marker, so a time written as hh:mm AM fails to parse and the
duration degrades to the sentinel instead of matching the hh:mm:00 AM
result demanded by the spec. -/
theorem c6_missing_seconds_eval :
    fixSeconds "09:00 AM" = "09:00 AM:00" ∧
    parse_time_IMSp "09:00 AM:00" = none ∧
    calculate_duration (.str "27/Dec/2025") "09:00 AM" (.str "27/Dec/2025") "05:15:30 PM" =
      "0h 0m" ∧
    calculate_duration (.str "27/Dec/2025") "09:00:00 AM" (.str "27/Dec/2025") "05:15:30 PM" =
      "8h 15m" := by
  exact ⟨by decide, by decide, by decide, by decide⟩

/-- Counterexample for C7: with the literal completion time 00:15:00 AM the
code returns the sentinel, not the 45-minute duration the claim asserts,
because the %I directive accepts the hours 01 to 12 only. -/
theorem c7_midnight_counterexample :
    calculate_duration (.str "01/Jan/2026") "11:30:00 PM" (.str "02/Jan/2026") "00:15:00 AM" =
      "0h 0m" ∧
    calculate_duration (.str "01/Jan/2026") "11:30:00 PM" (.str "02/Jan/2026") "00:15:00 AM" ≠
      "0h 45m" := by
  exact ⟨by decide, by decide⟩

/-- C7 (amended): with the completion time written in the valid 12-hour
spelling 12:15:00 AM, the midnight-crossing duration is the correct
positive "0h 45m"; the spelling 00:15:00 AM itself does not parse. -/
theorem c7_midnight_amended :
    calculate_duration (.str "01/Jan/2026") "11:30:00 PM" (.str "02/Jan/2026") "12:15:00 AM" =
      "0h 45m" ∧
    parse_time_IMSp "00:15:00 AM" = none := by
  exact ⟨by decide, by decide⟩

/-- Counterexample for C9: the created record has an empty Progress cell,
not the number 0 the claim asserts. -/
theorem c9_progress_counterexample :
    (admin_assign "emp1" "Cash" "NAL" ⟨2025, 12, 27⟩ sampleInstant).progress = none ∧
    (admin_assign "emp1" "Cash" "NAL" ⟨2025, 12, 27⟩ sampleInstant).progress ≠ some 0 := by
  exact ⟨rfl, by decide⟩

/-- C9 (amended): create always yields status In Progress, zero counts,
empty completion fields, assigned date and time formatted from the supplied
instant, and an empty Progress cell while in progress. -/
theorem c9_create_fields_amended :
    ∀ (tgt typ brn : String) (jdt : Date) (now : Instant),
      (admin_assign tgt typ brn jdt now).completionStatus = "In Progress" ∧
      (admin_assign tgt typ brn jdt now).numberOfTransaction = 0 ∧
      (admin_assign tgt typ brn jdt now).numberOfFindings = 0 ∧
      (admin_assign tgt typ brn jdt now).completionDate = "" ∧
      (admin_assign tgt typ brn jdt now).completionTime = "" ∧
      (admin_assign tgt typ brn jdt now).duration = "" ∧
      (admin_assign tgt typ brn jdt now).assignedDate = strftime_dbY now.date ∧
      (admin_assign tgt typ brn jdt now).assignedTime = strftime_IMSp now.time ∧
      (admin_assign tgt typ brn jdt now).progress = none := by
  intro tgt typ brn jdt now
  exact ⟨rfl, rfl, rfl, rfl, rfl, rfl, rfl, rfl, rfl⟩

/-- C10: the hours component of a duration is total elapsed hours, not
wrapped modulo 24: two days apart gives "48h 0m" and thirty days plus a
half hour gives "720h 30m". -/
theorem c10_hours_unbounded :
    calculate_duration (.str "01/Jan/2026") "09:00:00 AM" (.str "03/Jan/2026") "09:00:00 AM" =
      "48h 0m" ∧
    calculate_duration (.str "01/Jan/2026") "09:00:00 AM" (.str "31/Jan/2026") "09:30:00 AM" =
      "720h 30m" := by
  exact ⟨by decide, by decide⟩

/-- Month lengths never exceed 31. -/
theorem daysInMonth_le31 (y m : Nat) : daysInMonth y m ≤ 31 := by
  unfold daysInMonth
  split
  · split <;> omega
  · split <;> omega

/-- Code point of a digit character. -/
theorem toNat_digitChar (n : Nat) (h : n ≤ 9) : (digitChar n).toNat = 48 + n := by
  interval_cases n <;> decide

/-- Digit characters satisfy the digit class. -/
theorem isDig_digitChar (n : Nat) (h : n ≤ 9) : isDig (digitChar n) = true := by
  interval_cases n <;> decide

/-- Value of a digit character. -/
theorem dval_digitChar (n : Nat) (h : n ≤ 9) : dval (digitChar n) = n := by
  interval_cases n <;> decide

/-- Digit characters are not whitespace. -/
theorem isSpace_digitChar (n : Nat) (h : n ≤ 9) : isSpaceChar (digitChar n) = false := by
  interval_cases n <;> decide

/-- Month abbreviation characters are not whitespace. -/
theorem isSpace_monthChars (m : Nat) (h1 : 1 ≤ m) (h2 : m ≤ 12) :
    ∀ c ∈ monthChars m, isSpaceChar c = false := by
  interval_cases m <;> decide

/-- dropWhile is the identity when no element satisfies the predicate. -/
theorem dropWhile_eq_self_of_all (p : Char → Bool) (l : List Char)
    (h : ∀ c ∈ l, p c = false) : l.dropWhile p = l := by
  cases l with
  | nil => rfl
  | cons a t =>
    rw [List.dropWhile_cons, h a (List.mem_cons_self a t)]
    simp

/-- Stripping a string with no whitespace anywhere is the identity. -/
theorem pyStrip_eq_self (s : String) (h : ∀ c ∈ s.data, isSpaceChar c = false) :
    pyStrip s = s := by
  unfold pyStrip
  rw [dropWhile_eq_self_of_all _ _ h]
  rw [dropWhile_eq_self_of_all _ _ (fun c hc => h c (List.mem_reverse.mp hc))]
  rw [List.reverse_reverse]

/-- A literal matches itself. -/
theorem expectChar_same (c : Char) (rest : List Char) : expectChar c (c :: rest) = some rest := by
  show (if (c == c) = true then some rest else none) = some rest
  simp

/-- When the continuation succeeds on the first candidate, the backtracking
matcher commits to it. -/
theorem tryAlts_cons_of_some {α : Type} (v : Nat) (rest : List Char)
    (t : List (Nat × List Char)) (k : Nat → List Char → Option α) (r : α)
    (h : k v rest = some r) : tryAlts ((v, rest) :: t) k = some r := by
  unfold tryAlts
  rw [h]

/-- The %Y directive reads back a four-digit zero-padded year. -/
theorem match4Digits_pad4L (y : Nat) (h : y ≤ 9999) (rest : List Char) :
    match4Digits (pad4L y ++ rest) = some (y, rest) := by
  have h1 : y / 1000 ≤ 9 := by omega
  have h2 : y / 100 % 10 ≤ 9 := by omega
  have h3 : y / 10 % 10 ≤ 9 := by omega
  have h4 : y % 10 ≤ 9 := by omega
  show (if isDig (digitChar (y / 1000)) && isDig (digitChar (y / 100 % 10)) &&
        isDig (digitChar (y / 10 % 10)) && isDig (digitChar (y % 10)) then
      some (dval (digitChar (y / 1000)) * 1000 + dval (digitChar (y / 100 % 10)) * 100 +
        dval (digitChar (y / 10 % 10)) * 10 + dval (digitChar (y % 10)), rest)
    else none) = some (y, rest)
  rw [isDig_digitChar _ h1, isDig_digitChar _ h2, isDig_digitChar _ h3, isDig_digitChar _ h4]
  rw [dval_digitChar _ h1, dval_digitChar _ h2, dval_digitChar _ h3, dval_digitChar _ h4]
  have hyd : y / 1000 * 1000 + y / 100 % 10 * 100 + y / 10 % 10 * 10 + y % 10 = y := by omega
  simp only [Bool.and_self, if_true, hyd]

/-- The %d directive reads back a two-digit zero-padded day as its first
successful candidate. -/
theorem altsD_pad2L (d : Nat) (h1 : 1 ≤ d) (h2 : d ≤ 31) (rest : List Char) :
    ∃ t, altsD (pad2L d ++ rest) = (d, rest) :: t := by
  interval_cases d <;> exact ⟨_, rfl⟩

/-- The %b directive reads back a formatted month abbreviation. -/
theorem matchMonth_monthChars (m : Nat) (h1 : 1 ≤ m) (h2 : m ≤ 12) (rest : List Char) :
    matchMonth (monthChars m ++ rest) = some (m, rest) := by
  interval_cases m <;> rfl

/-- The datetime constructor succeeds on a valid date. -/
theorem mkValidDate_of_valid (dt : Date) (h : ValidDate dt) :
    mkValidDate dt.year dt.month dt.day = some dt := by
  unfold mkValidDate
  rw [if_pos h]

/-- C8: for every valid canonical date, formatting with the single persisted
%d/%b/%Y format and parsing back returns the same date; and whenever a cell
parses at all, update_data writes it back only in that format. -/
theorem c8_roundtrip :
    (∀ dt : Date, ValidDate dt → parse_date_robustly (.str (strftime_dbY dt)) = some dt) ∧
    (∀ (x : DateInput) (d : Date), parse_date_robustly x = some d →
      update_data_cell x = .str (strftime_dbY d)) := by
  constructor
  · intro dt hv
    obtain ⟨hy1, hy2, hm1, hm2, hd1, hd2⟩ := hv
    have hd31 : dt.day ≤ 31 := le_trans hd2 (daysInMonth_le31 _ _)
    have hmem : ∀ c ∈ (strftime_dbY dt).data, isSpaceChar c = false := by
      intro c hc
      have hc2 : c ∈ pad2L dt.day ++ '/' :: (monthChars dt.month ++ '/' :: pad4L dt.year) := hc
      rcases List.mem_append.mp hc2 with h | h
      · rcases List.mem_cons.mp h with h | h
        · subst h
          exact isSpace_digitChar _ (by omega)
        · rcases List.mem_cons.mp h with h | h
          · subst h
            exact isSpace_digitChar _ (by omega)
          · exact absurd h (List.not_mem_nil c)
      · rcases List.mem_cons.mp h with h | h
        · subst h
          decide
        · rcases List.mem_append.mp h with h | h
          · exact isSpace_monthChars dt.month hm1 hm2 c h
          · rcases List.mem_cons.mp h with h | h
            · subst h
              decide
            · rcases List.mem_cons.mp h with h | h
              · subst h
                exact isSpace_digitChar _ (by omega)
              · rcases List.mem_cons.mp h with h | h
                · subst h
                  exact isSpace_digitChar _ (by omega)
                · rcases List.mem_cons.mp h with h | h
                  · subst h
                    exact isSpace_digitChar _ (by omega)
                  · rcases List.mem_cons.mp h with h | h
                    · subst h
                      exact isSpace_digitChar _ (by omega)
                    · exact absurd h (List.not_mem_nil c)
    have hne : strftime_dbY dt ≠ "" := strftime_dbY_ne_empty dt
    have hstrip : pyStrip (strftime_dbY dt) = strftime_dbY dt := pyStrip_eq_self _ hmem
    have hparse : parse_fmt_dbY (strftime_dbY dt) = some dt := by
      obtain ⟨tl, htl⟩ :=
        altsD_pad2L dt.day hd1 hd31 ('/' :: (monthChars dt.month ++ '/' :: pad4L dt.year))
      have hdata : (strftime_dbY dt).data =
          pad2L dt.day ++ '/' :: (monthChars dt.month ++ '/' :: pad4L dt.year) := rfl
      unfold parse_fmt_dbY
      rw [hdata, htl]
      apply tryAlts_cons_of_some
      have h4 : match4Digits (pad4L dt.year) = some (dt.year, []) := by
        have h5 := match4Digits_pad4L dt.year hy2 []
        rwa [List.append_nil] at h5
      simp only [expectChar_same, matchMonth_monthChars dt.month hm1 hm2, h4]
      exact mkValidDate_of_valid dt ⟨hy1, hy2, hm1, hm2, hd1, hd2⟩
    show (if strftime_dbY dt = "" then none
        else firstParse formats_to_try (pyStrip (strftime_dbY dt))) = some dt
    rw [if_neg hne, hstrip]
    simp only [formats_to_try, firstParse, hparse]
  · intro x d h
    unfold update_data_cell
    rw [h]

/-- Witness for C8 at a concrete valid date. -/
theorem c8_roundtrip_witness :
    ValidDate ⟨2025, 12, 27⟩ ∧
    parse_date_robustly (.str (strftime_dbY ⟨2025, 12, 27⟩)) = some ⟨2025, 12, 27⟩ :=
  ⟨by decide, c8_roundtrip.1 ⟨2025, 12, 27⟩ (by decide)⟩

end AppModel
